import Mathlib

/-!
Verification development for the client-side real-time connection manager
(the WebSocket provider) of the CuraLink telehealth application.

The repository contains two variants of the provider:

* the later variant (`WS` namespace below): capped exponential-backoff
  reconnection with `maxReconnectAttempts = 3`, an enable/disable flag
  persisted to local storage under the key `websocket_enabled`, and
  auto-disable once the retry budget is exhausted;
* the earlier variant (`Early` namespace below): `maxReconnectAttempts = 5`,
  no enable/disable flag, and a terminal "Connection Lost" report once the
  budget is exhausted.

The embedding is a single-threaded event-driven state machine, matching the
source's handler structure: each browser event (transport open, transport
message, transport close, the reconnect timer elapsing, the effect hook
running, a user toggle, a send request) is one `Event`, and `step` applies
the corresponding handler to the current state.  Observable side effects of
the handlers (toast notifications shown, console warnings, transport frames
written, sockets created, `close()` calls issued, `connect()` entries) are
recorded in counter / list fields of the state so that the theorems can
speak about them.  `JSON.parse` of an inbound frame is represented by its
outcome, an `Option JVal` (`none` when parsing throws).
-/

/-- Dynamic values manipulated by the provider: the result of parsing a JSON
frame, plus the JavaScript `undefined` value produced by a missed property
lookup. -/
inductive JVal where
  | jNull
  | jUndefined
  | jBool (b : Bool)
  | jNum (n : Int)
  | jStr (s : String)
  | jArr (elems : List JVal)
  | jObj (fields : List (String × JVal))
deriving Repr

/-- JavaScript property access `v[key]`.  Returns `none` when the access
throws a TypeError (base value `null` or `undefined`); returns
`some .jUndefined` when the property is merely missing (object without the
key, or a primitive base). -/
def jsGet (v : JVal) (key : String) : Option JVal :=
  match v with
  | .jNull => none
  | .jUndefined => none
  | .jObj fields =>
    match fields.lookup key with
    | some w => some w
    | none => some .jUndefined
  | _ => some .jUndefined

/-- The externally supplied identity used to authenticate the channel:
`user.id` and `user.role` in the source. -/
structure Identity where
  id : Nat
  role : String
deriving Repr, DecidableEq

/-- One transport-level socket: whether its `readyState` has reached OPEN,
and the identity captured by the handler closures when it was created. -/
structure Socket where
  isOpen : Bool
  owner : Identity
deriving Repr, DecidableEq

/-- The authentication frame sent by the `onopen` handler:
`JSON.stringify t.type: "auth", userId: user.id, role: user.role`. -/
def authFrame (u : Identity) : JVal :=
  .jObj [("type", .jStr "auth"), ("userId", .jNum u.id), ("role", .jStr u.role)]

namespace WS

/-- `const maxReconnectAttempts = 3` of the later provider variant. -/
def maxReconnectAttempts : Nat := 3

/-- The backoff base: `2000 * Math.pow(2, reconnectAttempts)`. -/
def baseDelayMs : Nat := 2000

/-- State of the later provider variant.  The first block mirrors the React
state hooks and the local-storage cell; the second block records pending
timers (`setTimeout` callbacks not yet run); the third block records the
observable actions the handlers perform. -/
structure ChannelState where
  user : Option Identity := none
  socket : Option Socket := none
  connected : Bool := false
  messages : List JVal := []
  reconnectAttempts : Nat := 0
  enabled : Bool := true
  storage : Option String := none
  pendingTimer : Option Nat := none
  pendingConnect : Bool := false
  errorToasts : Nat := 0
  infoToasts : Nat := 0
  parseErrors : Nat := 0
  sentFrames : List JVal := []
  warnCount : Nat := 0
  socketsCreated : Nat := 0
  closeCalls : Nat := 0
  connectCalls : Nat := 0
deriving Repr

/-- Reading the persisted preference:
`stored === null || stored === "true"` (source lines 29-32). -/
def isWebSocketEnabled (stored : Option String) : Bool :=
  match stored with
  | none => true
  | some v => v = "true"

/-- The `setEnabled` callback (source lines 45-60): persist the flag,
update the state, then either arm the delayed reconnect (enable path with a
user, no connection and no socket) or close the existing socket (disable
path). -/
def setEnabled (value : Bool) (s : ChannelState) : ChannelState :=
  let s := { s with storage := some (if value then "true" else "false"),
                    enabled := value }
  if value = true ∧ s.user.isSome = true ∧ s.connected = false ∧
      s.socket.isNone = true then
    { s with reconnectAttempts := 0, pendingConnect := true }
  else if value = false ∧ s.socket.isSome = true then
    { s with closeCalls := s.closeCalls + 1, socket := none, connected := false }
  else s

/-- The `connect` callback (source lines 62-186): refuse when disabled or
logged out; on an exhausted retry budget show the terminal toast and
self-disable exactly at the boundary; otherwise close any existing socket
and create a fresh one (initially not open). -/
def connect (s : ChannelState) : ChannelState :=
  let s := { s with connectCalls := s.connectCalls + 1 }
  match s.user with
  | none => { s with socket := none, connected := false }
  | some u =>
    if s.enabled = false then { s with socket := none, connected := false }
    else if maxReconnectAttempts ≤ s.reconnectAttempts then
      if s.reconnectAttempts = maxReconnectAttempts then
        setEnabled false { s with errorToasts := s.errorToasts + 1 }
      else s
    else
      let s := if s.socket.isSome = true
               then { s with closeCalls := s.closeCalls + 1 } else s
      { s with socket := some ⟨false, u⟩,
               socketsCreated := s.socketsCreated + 1 }

/-- The `onopen` handler (source lines 107-122): mark connected, reset the
attempt counter, and send the single auth frame built from the identity the
closure captured. -/
def onopen (sock : Socket) (s : ChannelState) : ChannelState :=
  { s with connected := true,
           reconnectAttempts := 0,
           sentFrames := s.sentFrames ++ [authFrame sock.owner],
           socket := some { sock with isOpen := true } }

/-- Tail of the `onmessage` handler, after the parsed frame has been
appended: the type-specific toast dispatch.  A property access that throws
(`data.type` on a null frame, `data.data.status` when `data.data` is
undefined or null) is caught by the surrounding try/catch and logged as a
parse failure. -/
def handleParsed (data : JVal) (s : ChannelState) : ChannelState :=
  match jsGet data "type" with
  | none => { s with parseErrors := s.parseErrors + 1 }
  | some (.jStr tag) =>
    if tag = "doctorUpdate" then { s with infoToasts := s.infoToasts + 1 }
    else if tag = "appointmentUpdate" then
      match jsGet data "data" with
      | none => { s with parseErrors := s.parseErrors + 1 }
      | some d =>
        match jsGet d "status" with
        | none => { s with parseErrors := s.parseErrors + 1 }
        | some _ => { s with infoToasts := s.infoToasts + 1 }
    else s
  | some _ => s

/-- The `onmessage` handler (source lines 124-146).  The argument is the
outcome of `JSON.parse(event.data)`: `none` when parsing throws.  A parse
failure is logged and the frame discarded; a parsed frame is appended to
`messages` first and only then dispatched to the toast logic. -/
def onmessage (frame : Option JVal) (s : ChannelState) : ChannelState :=
  match frame with
  | none => { s with parseErrors := s.parseErrors + 1 }
  | some data => handleParsed data { s with messages := s.messages ++ [data] }

/-- The `onclose` handler (source lines 148-166): drop the connection and
the socket, then schedule an exponential-backoff reconnect only while the
attempt budget is unspent and the channel is enabled. -/
def onclose (s : ChannelState) : ChannelState :=
  let s := { s with connected := false, socket := none }
  if s.reconnectAttempts < maxReconnectAttempts ∧ s.enabled = true then
    { s with pendingTimer := some (baseDelayMs * 2 ^ s.reconnectAttempts) }
  else s

/-- The `sendMessage` callback (source lines 210-224): write the frame when
a socket exists with `readyState === OPEN`; otherwise log a drop warning,
but only when the channel is meant to be enabled.  Nothing is ever queued
or retried. -/
def sendMessage (m : JVal) (s : ChannelState) : ChannelState :=
  match s.socket with
  | some sock =>
    if sock.isOpen = true then { s with sentFrames := s.sentFrames ++ [m] }
    else if s.enabled = true then { s with warnCount := s.warnCount + 1 }
    else s
  | none =>
    if s.enabled = true then { s with warnCount := s.warnCount + 1 }
    else s

/-- The external events the provider reacts to.  `timerFire` is the
reconnect `setTimeout` callback from `onclose` elapsing; `enableFire` is
the 100 ms delayed `connect` armed by `setEnabled(true)`; `effect` is the
`useEffect` body running. -/
inductive Event where
  | effect
  | openEv
  | messageEv (frame : Option JVal)
  | closeEv
  | timerFire
  | enableFire
  | setEnabledEv (b : Bool)
  | sendEv (m : JVal)

/-- One event-loop turn: dispatch the event to the source handler it
corresponds to.  Transport events (`open`, `message`, `close`) only occur
while a socket object exists; a message only arrives on an open socket;
each timer callback runs at most once. -/
def step (e : Event) (s : ChannelState) : ChannelState :=
  match e with
  | .effect =>
    if s.enabled = true ∧ s.user.isSome = true then connect s
    else
      let s1 := match s.socket with
        | some sock =>
          if sock.isOpen = true
          then { s with closeCalls := s.closeCalls + 1, socket := none }
          else s
        | none => s
      { s1 with connected := false }
  | .openEv =>
    match s.socket with
    | some sock => if sock.isOpen = false then onopen sock s else s
    | none => s
  | .messageEv f =>
    match s.socket with
    | some sock => if sock.isOpen = true then onmessage f s else s
    | none => s
  | .closeEv =>
    match s.socket with
    | some _ => onclose s
    | none => s
  | .timerFire =>
    match s.pendingTimer with
    | some _ =>
      connect { s with pendingTimer := none,
                       reconnectAttempts := s.reconnectAttempts + 1 }
    | none => s
  | .enableFire =>
    if s.pendingConnect = true then connect { s with pendingConnect := false }
    else s
  | .setEnabledEv b => setEnabled b s
  | .sendEv m => sendMessage m s

/-- Run a sequence of events from a state. -/
def run (es : List Event) (s : ChannelState) : ChannelState :=
  es.foldl (fun t e => step e t) s

/-- The maximal run of consecutive unexpected closes with no intervening
successful open: each close schedules a backoff timer, and each timer fire
re-enters `connect`. -/
def exhaustRun : List Event :=
  [.closeEv, .timerFire, .closeEv, .timerFire, .closeEv, .timerFire]

end WS

namespace Early

/-- `const maxReconnectAttempts = 5` of the earlier provider variant. -/
def maxReconnectAttempts : Nat := 5

/-- State of the earlier provider variant: no enable/disable flag and no
persisted preference. -/
structure EState where
  user : Option Identity := none
  socket : Option Socket := none
  connected : Bool := false
  messages : List JVal := []
  reconnectAttempts : Nat := 0
  pendingTimer : Option Nat := none
  errorToasts : Nat := 0
  infoToasts : Nat := 0
  parseErrors : Nat := 0
  sentFrames : List JVal := []
  warnCount : Nat := 0
  socketsCreated : Nat := 0
  connectCalls : Nat := 0
deriving Repr

/-- The earlier `connect` callback (source lines 33-111): no enabled guard,
no retry-budget guard, and no teardown of an existing socket. -/
def connect (s : EState) : EState :=
  let s := { s with connectCalls := s.connectCalls + 1 }
  match s.user with
  | none => { s with socket := none, connected := false }
  | some u =>
    { s with socket := some ⟨false, u⟩,
             socketsCreated := s.socketsCreated + 1 }

/-- The earlier `onopen` handler (source lines 46-58): identical to the
later variant. -/
def onopen (sock : Socket) (s : EState) : EState :=
  { s with connected := true,
           reconnectAttempts := 0,
           sentFrames := s.sentFrames ++ [authFrame sock.owner],
           socket := some { sock with isOpen := true } }

/-- Tail of the earlier `onmessage` handler, identical in logic to the
later variant. -/
def handleParsed (data : JVal) (s : EState) : EState :=
  match jsGet data "type" with
  | none => { s with parseErrors := s.parseErrors + 1 }
  | some (.jStr tag) =>
    if tag = "doctorUpdate" then { s with infoToasts := s.infoToasts + 1 }
    else if tag = "appointmentUpdate" then
      match jsGet data "data" with
      | none => { s with parseErrors := s.parseErrors + 1 }
      | some d =>
        match jsGet d "status" with
        | none => { s with parseErrors := s.parseErrors + 1 }
        | some _ => { s with infoToasts := s.infoToasts + 1 }
    else s
  | some _ => s

/-- The earlier `onmessage` handler (source lines 60-82): append the parsed
frame, then dispatch. -/
def onmessage (frame : Option JVal) (s : EState) : EState :=
  match frame with
  | none => { s with parseErrors := s.parseErrors + 1 }
  | some data => handleParsed data { s with messages := s.messages ++ [data] }

/-- The earlier `onclose` handler (source lines 84-100): schedule an
exponential-backoff reconnect while attempts remain, otherwise show the
terminal "Connection Lost" toast.  The socket state variable is not
cleared, and there is no flag to disable. -/
def onclose (s : EState) : EState :=
  let s := { s with connected := false }
  if s.reconnectAttempts < maxReconnectAttempts then
    { s with pendingTimer := some (2000 * 2 ^ s.reconnectAttempts) }
  else
    { s with errorToasts := s.errorToasts + 1 }

/-- The earlier `sendMessage` callback (source lines 126-135): write when
open, otherwise warn unconditionally. -/
def sendMessage (m : JVal) (s : EState) : EState :=
  match s.socket with
  | some sock =>
    if sock.isOpen = true then { s with sentFrames := s.sentFrames ++ [m] }
    else { s with warnCount := s.warnCount + 1 }
  | none => { s with warnCount := s.warnCount + 1 }

end Early

section HelperLemmas

/-- The toast-dispatch tail of `onmessage` touches only the toast and
parse-failure counters: the message list is preserved, no matter which
branch runs or throws. -/
theorem WS_handleParsed_messages (d : JVal) (s : WS.ChannelState) :
    (WS.handleParsed d s).messages = s.messages := by
  unfold WS.handleParsed
  repeat' split
  all_goals simp

/-- The toast-dispatch tail of `onmessage` preserves the enabled flag. -/
theorem WS_handleParsed_enabled (d : JVal) (s : WS.ChannelState) :
    (WS.handleParsed d s).enabled = s.enabled := by
  unfold WS.handleParsed
  repeat' split
  all_goals simp

/-- The toast-dispatch tail of `onmessage` preserves the reconnect timer. -/
theorem WS_handleParsed_pendingTimer (d : JVal) (s : WS.ChannelState) :
    (WS.handleParsed d s).pendingTimer = s.pendingTimer := by
  unfold WS.handleParsed
  repeat' split
  all_goals simp

/-- The toast-dispatch tail of `onmessage` preserves the delayed-connect
flag. -/
theorem WS_handleParsed_pendingConnect (d : JVal) (s : WS.ChannelState) :
    (WS.handleParsed d s).pendingConnect = s.pendingConnect := by
  unfold WS.handleParsed
  repeat' split
  all_goals simp

/-- The toast-dispatch tail of `onmessage` never enters `connect`. -/
theorem WS_handleParsed_connectCalls (d : JVal) (s : WS.ChannelState) :
    (WS.handleParsed d s).connectCalls = s.connectCalls := by
  unfold WS.handleParsed
  repeat' split
  all_goals simp

/-- The toast-dispatch tail of `onmessage` creates no socket. -/
theorem WS_handleParsed_socketsCreated (d : JVal) (s : WS.ChannelState) :
    (WS.handleParsed d s).socketsCreated = s.socketsCreated := by
  unfold WS.handleParsed
  repeat' split
  all_goals simp

/-- The toast-dispatch tail of `onmessage` raises no terminal toast. -/
theorem WS_handleParsed_errorToasts (d : JVal) (s : WS.ChannelState) :
    (WS.handleParsed d s).errorToasts = s.errorToasts := by
  unfold WS.handleParsed
  repeat' split
  all_goals simp

/-- The earlier variant's toast-dispatch tail likewise only touches the
toast and parse-failure counters. -/
theorem Early_handleParsed_messages (d : JVal) (s : Early.EState) :
    (Early.handleParsed d s).messages = s.messages := by
  unfold Early.handleParsed
  repeat' split
  all_goals simp

end HelperLemmas

/-- A state with a live open connection for identity 7/"patient", as after a
successful connect and open. -/
def liveState : WS.ChannelState :=
  { user := some ⟨7, "patient"⟩, socket := some ⟨true, ⟨7, "patient"⟩⟩,
    connected := true, enabled := true, storage := some "true" }

/-- A disconnected state with a reconnect scheduled: the first backoff timer
(2000 ms) is pending after one unexpected close. -/
def pendingReconnectState : WS.ChannelState :=
  { user := some ⟨7, "patient"⟩, socket := none, connected := false,
    reconnectAttempts := 0, enabled := true, storage := some "true",
    pendingTimer := some 2000 }

/-- A disabled idle state: no socket, the channel switched off. -/
def disabledIdleState : WS.ChannelState :=
  { user := some ⟨7, "patient"⟩, enabled := false, storage := some "false" }

/-- An inbound frame of type `appointmentUpdate` with no `data` field, so
the toast dispatch throws when it reads `data.data.status`. -/
def badAppointmentFrame : JVal := .jObj [("type", .jStr "appointmentUpdate")]

/-- A state of the earlier provider variant whose retry budget is spent. -/
def earlyExhaustedState : Early.EState :=
  { user := some ⟨7, "patient"⟩, socket := some ⟨false, ⟨7, "patient"⟩⟩,
    connected := false, reconnectAttempts := 5 }

/-- Claim C3, counterexample: `setEnabled(false)` does not cancel a pending
scheduled reconnect.  In a state with a 2000 ms reconnect timer pending,
disabling leaves the timer armed (the source never clears the `onclose`
timeout). -/
theorem C3_no_cancel_counterexample :
    (WS.setEnabled false pendingReconnectState).pendingTimer = some 2000 ∧
    (WS.setEnabled false pendingReconnectState).pendingTimer ≠ none := by
  exact ⟨rfl, by decide⟩

/-- Claim C3 as amended: `setEnabled(false)` persists `"false"`, clears the
enabled flag, leaves no socket (closing a live transport when one is
present), and leaves `connected` false whenever a transport was present —
but it does not cancel a pending scheduled reconnect.  When that timer
later fires, `connect()` sees `enabled = false`, so no new transport is
created, no timer remains, and `connect` was entered exactly when a timer
was pending. -/
theorem C3_disable_semantics (s : WS.ChannelState) :
    (WS.setEnabled false s).storage = some "false" ∧
    (WS.setEnabled false s).enabled = false ∧
    (WS.setEnabled false s).socket = none ∧
    (WS.setEnabled false s).connected = (s.socket.isNone && s.connected) ∧
    (WS.setEnabled false s).closeCalls =
      (if s.socket.isSome = true then s.closeCalls + 1 else s.closeCalls) ∧
    (WS.setEnabled false s).pendingTimer = s.pendingTimer ∧
    (WS.step .timerFire (WS.setEnabled false s)).socketsCreated =
      s.socketsCreated ∧
    (WS.step .timerFire (WS.setEnabled false s)).socket = none ∧
    (WS.step .timerFire (WS.setEnabled false s)).pendingTimer = none ∧
    (WS.step .timerFire (WS.setEnabled false s)).connectCalls =
      (if s.pendingTimer.isSome = true then s.connectCalls + 1
       else s.connectCalls) := by
  rcases hsock : s.socket with _ | sock <;>
    rcases hpt : s.pendingTimer with _ | d <;>
    rcases hu : s.user with _ | u <;>
    simp [WS.setEnabled, WS.step, WS.connect, hsock, hpt, hu]

/-- The send guard of the source: `socket && socket.readyState === WebSocket.OPEN`. -/
def WS.isSockOpen (s : WS.ChannelState) : Bool :=
  match s.socket with
  | some sock => sock.isOpen
  | none => false

/-- Claim C4, counterexample: with no socket and the channel disabled,
`sendMessage` performs no transport write but also reports nothing — the
drop is silent, contradicting "in every other state it reports the drop
non-fatally". -/
theorem C4_silent_drop_counterexample :
    WS.sendMessage (.jStr "ping") disabledIdleState = disabledIdleState ∧
    (WS.sendMessage (.jStr "ping") disabledIdleState).warnCount ≠
      disabledIdleState.warnCount + 1 := by
  exact ⟨rfl, by decide⟩

/-- Claim C4 as amended: `sendMessage` returns no value; when a socket
exists with `readyState` OPEN it writes exactly one serialized frame, and
in every other state it performs no transport write, never queues or
retries the request, makes no connection attempt, and logs a non-fatal drop
warning only when `enabled` is true (silently dropping when disabled). -/
theorem C4_send_behavior (s : WS.ChannelState) (m : JVal) :
    (WS.sendMessage m s).sentFrames =
      (if WS.isSockOpen s = true then s.sentFrames ++ [m] else s.sentFrames) ∧
    (WS.sendMessage m s).warnCount =
      (if WS.isSockOpen s = true then s.warnCount
       else if s.enabled = true then s.warnCount + 1 else s.warnCount) ∧
    (WS.sendMessage m s).messages = s.messages ∧
    (WS.sendMessage m s).socketsCreated = s.socketsCreated ∧
    (WS.sendMessage m s).connectCalls = s.connectCalls ∧
    (WS.sendMessage m s).socket = s.socket ∧
    (WS.sendMessage m s).pendingTimer = s.pendingTimer := by
  rcases hsock : s.socket with _ | sock
  · rcases hen : s.enabled with _ | _ <;>
      simp [WS.sendMessage, WS.isSockOpen, hsock, hen]
  · rcases ho : sock.isOpen with _ | _ <;>
      rcases hen : s.enabled with _ | _ <;>
      simp [WS.sendMessage, WS.isSockOpen, hsock, ho, hen]

/-- Claim C6: an inbound frame that fails to parse is only logged — it
never reaches `messages`, no toast is raised for it, nothing is sent, and
the connection state (socket and `connected`) is untouched. -/
theorem C6_parse_failure_discarded (s : WS.ChannelState) :
    (WS.onmessage none s).messages = s.messages ∧
    (WS.onmessage none s).connected = s.connected ∧
    (WS.onmessage none s).socket = s.socket ∧
    (WS.onmessage none s).infoToasts = s.infoToasts ∧
    (WS.onmessage none s).sentFrames = s.sentFrames ∧
    (WS.onmessage none s).parseErrors = s.parseErrors + 1 := by
  exact ⟨rfl, rfl, rfl, rfl, rfl, rfl⟩

/-- Claim C7, counterexample: the stored value `"garbage"` is unparseable
as `"true"`/`"false"`, yet reading the preference yields `false`, not the
claimed default `true`. -/
theorem C7_unparseable_counterexample :
    WS.isWebSocketEnabled (some "garbage") = false ∧
    "garbage" ≠ "true" ∧ "garbage" ≠ "false" := by
  refine ⟨rfl, by decide, by decide⟩

/-- Claim C7 as amended: the preference is one boolean stored under a fixed
key, string-encoded as `"true"`/`"false"` by `setEnabled`; reading it
yields enabled exactly when the value is absent or is the string `"true"` —
any other stored string, parseable or not (including `"false"`), reads as
disabled. -/
theorem C7_preference_encoding (v : Option String) (b : Bool)
    (s : WS.ChannelState) :
    (WS.isWebSocketEnabled v = true ↔ (v = none ∨ v = some "true")) ∧
    (WS.setEnabled b s).storage = some (if b then "true" else "false") := by
  constructor
  · cases v <;> simp [WS.isWebSocketEnabled]
  · cases b <;>
      · simp only [WS.setEnabled]
        split
        · rfl
        · split <;> rfl

/-- Claim C9, counterexample: the earlier variant does not retry without
bound.  At the sixth consecutive unexpected close (attempt counter already
at `maxReconnectAttempts = 5`) its `onclose` handler schedules no reconnect
at all and instead shows the terminal "Connection Lost" toast. -/
theorem C9_bounded_retry_counterexample :
    (Early.onclose earlyExhaustedState).pendingTimer = none ∧
    (Early.onclose earlyExhaustedState).errorToasts = 1 := by
  exact ⟨rfl, rfl⟩

/-- The later `connect` disables the channel and persists `"false"` exactly
when it is entered with the attempt counter at the cap (enabled, with a
user), and creates a socket exactly when it is entered below the cap. -/
theorem WS_connect_cap_effects (t : WS.ChannelState) :
    (WS.connect t).enabled =
      (if t.user.isSome = true ∧ t.enabled = true ∧ t.reconnectAttempts = 3
       then false else t.enabled) ∧
    (WS.connect t).storage =
      (if t.user.isSome = true ∧ t.enabled = true ∧ t.reconnectAttempts = 3
       then some "false" else t.storage) ∧
    (WS.connect t).socketsCreated =
      (if t.enabled = true ∧ t.user.isSome = true ∧ t.reconnectAttempts < 3
       then t.socketsCreated + 1 else t.socketsCreated) := by
  rcases hu : t.user with _ | u
  · simp [WS.connect, hu]
  · rcases hen : t.enabled with _ | _
    · simp [WS.connect, hu, hen]
    · by_cases h3 : t.reconnectAttempts < 3
      · have h1 : ¬ (3 ≤ t.reconnectAttempts) := by omega
        have h2 : ¬ (t.reconnectAttempts = 3) := by omega
        rcases hsock : t.socket with _ | sock <;>
          simp [WS.connect, WS.maxReconnectAttempts, hu, hen, h1, h2, h3, hsock]
      · have h1 : 3 ≤ t.reconnectAttempts := by omega
        by_cases h4 : t.reconnectAttempts = 3
        · rcases hsock : t.socket with _ | sock <;>
            simp [WS.connect, WS.setEnabled, WS.maxReconnectAttempts, hu, hen,
              h1, h3, h4, hsock]
        · rcases hsock : t.socket with _ | sock <;>
            simp [WS.connect, WS.maxReconnectAttempts, hu, hen, h1, h3, h4,
              hsock]

/-- Claim C9 as amended: the earlier variant uses `maxAttempts = 5` against
the later variant's 3, has no enabled flag and hence no disable step, and
schedules a backoff reconnect of `2000 * 2^attempt` only while
`attempt < 5` — after that it reports "Connection Lost" and stops
scheduling, rather than retrying without bound.  Its `connect` opens a
socket unconditionally whenever a user is present.  The later variant, in
contrast, disables the channel (flag and persisted value both `false`) when
`connect` runs with the attempt counter exactly at its cap, and only
creates sockets below the cap. -/
theorem C9_variant_policies (s : Early.EState) (t : WS.ChannelState) :
    Early.maxReconnectAttempts = 5 ∧
    WS.maxReconnectAttempts = 3 ∧
    (Early.onclose s).pendingTimer =
      (if s.reconnectAttempts < 5 then some (2000 * 2 ^ s.reconnectAttempts)
       else s.pendingTimer) ∧
    (Early.onclose s).errorToasts =
      (if s.reconnectAttempts < 5 then s.errorToasts else s.errorToasts + 1) ∧
    (Early.connect s).socket =
      (match s.user with
       | none => none
       | some u => some ⟨false, u⟩) ∧
    (WS.connect t).enabled =
      (if t.user.isSome = true ∧ t.enabled = true ∧ t.reconnectAttempts = 3
       then false else t.enabled) ∧
    (WS.connect t).storage =
      (if t.user.isSome = true ∧ t.enabled = true ∧ t.reconnectAttempts = 3
       then some "false" else t.storage) ∧
    (WS.connect t).socketsCreated =
      (if t.enabled = true ∧ t.user.isSome = true ∧ t.reconnectAttempts < 3
       then t.socketsCreated + 1 else t.socketsCreated) := by
  refine ⟨rfl, rfl, ?_, ?_, ?_,
    (WS_connect_cap_effects t).1, (WS_connect_cap_effects t).2.1,
    (WS_connect_cap_effects t).2.2⟩
  · by_cases h : s.reconnectAttempts < 5 <;>
      simp [Early.onclose, Early.maxReconnectAttempts, h]
  · by_cases h : s.reconnectAttempts < 5 <;>
      simp [Early.onclose, Early.maxReconnectAttempts, h]
  · rcases hu : s.user with _ | u <;> simp [Early.connect, hu]

/-- Claim C10: every successfully parsed inbound frame is appended to
`messages` before the type-specific toast dispatch runs, and when that
dispatch throws — as for an `appointmentUpdate` frame with no `data` field,
where reading `data.data.status` throws — the append is not rolled back:
the frame stays in `messages` while the exception is caught and logged as a
parse failure.  Both provider variants behave this way. -/
theorem C10_append_survives_throw (s : WS.ChannelState) (t : Early.EState)
    (data : JVal) :
    (WS.onmessage (some data) s).messages = s.messages ++ [data] ∧
    (WS.onmessage (some badAppointmentFrame) s).messages =
      s.messages ++ [badAppointmentFrame] ∧
    (WS.onmessage (some badAppointmentFrame) s).parseErrors =
      s.parseErrors + 1 ∧
    (WS.onmessage (some badAppointmentFrame) s).infoToasts = s.infoToasts ∧
    (WS.onmessage (some badAppointmentFrame) s).connected = s.connected ∧
    (Early.onmessage (some data) t).messages = t.messages ++ [data] ∧
    (Early.onmessage (some badAppointmentFrame) t).parseErrors =
      t.parseErrors + 1 := by
  refine ⟨?_, rfl, rfl, rfl, rfl, ?_, rfl⟩
  · show (WS.handleParsed data { s with messages := s.messages ++ [data] }).messages
      = s.messages ++ [data]
    exact WS_handleParsed_messages data _
  · show (Early.handleParsed data { t with messages := t.messages ++ [data] }).messages
      = t.messages ++ [data]
    exact Early_handleParsed_messages data _

/-- A state in which a fresh, not yet open socket exists for identity
7/"patient": the channel is Connecting. -/
def connectingState : WS.ChannelState :=
  { user := some ⟨7, "patient"⟩, socket := some ⟨false, ⟨7, "patient"⟩⟩,
    enabled := true }

/-- Claim C5: when the transport open event arrives on a not-yet-open
socket, exactly one authentication frame
`t.type: "auth", userId, role` built from the connecting identity is
appended to the sent frames, `connected` becomes true, and the reconnect
attempt counter resets to 0. -/
theorem C5_auth_on_open (s : WS.ChannelState) (sock : Socket)
    (hs : s.socket = some sock) (ho : sock.isOpen = false) :
    (WS.step .openEv s).sentFrames =
      s.sentFrames ++ [JVal.jObj [("type", .jStr "auth"),
        ("userId", .jNum sock.owner.id), ("role", .jStr sock.owner.role)]] ∧
    (WS.step .openEv s).connected = true ∧
    (WS.step .openEv s).reconnectAttempts = 0 := by
  simp [WS.step, WS.onopen, authFrame, hs, ho]

/-- Witness for C5, the spec scenario: identity id 7, role "patient"
connects, the transport opens, and exactly the frame
`t.type: "auth", userId: 7, role: "patient"` has been sent with
`connected = true`. -/
theorem C5_auth_on_open_witness :
    (WS.step .openEv connectingState).sentFrames =
      [JVal.jObj [("type", .jStr "auth"), ("userId", .jNum 7),
        ("role", .jStr "patient")]] ∧
    (WS.step .openEv connectingState).connected = true ∧
    (WS.step .openEv connectingState).reconnectAttempts = 0 := by
  have h := C5_auth_on_open connectingState ⟨false, ⟨7, "patient"⟩⟩ rfl rfl
  simpa [connectingState] using h

/-- Claim C8: calling `connect` while a transport already exists (the
channel is Connecting or Open) first issues a best-effort `close()` on the
existing socket and then installs exactly one fresh socket, so a single
socket slot holds at most one live transport; with no existing socket, no
`close()` is issued. -/
theorem C8_connect_teardown (s : WS.ChannelState) (u : Identity)
    (hu : s.user = some u) (hen : s.enabled = true)
    (hatt : s.reconnectAttempts < WS.maxReconnectAttempts) :
    (∀ sock : Socket, s.socket = some sock →
      (WS.connect s).closeCalls = s.closeCalls + 1 ∧
      (WS.connect s).socket = some ⟨false, u⟩ ∧
      (WS.connect s).socketsCreated = s.socketsCreated + 1) ∧
    (s.socket = none →
      (WS.connect s).closeCalls = s.closeCalls ∧
      (WS.connect s).socket = some ⟨false, u⟩ ∧
      (WS.connect s).socketsCreated = s.socketsCreated + 1) := by
  have h1 : ¬ (WS.maxReconnectAttempts ≤ s.reconnectAttempts) :=
    Nat.not_le.mpr hatt
  constructor
  · intro sock hsock
    refine ⟨?_, ?_, ?_⟩ <;> simp [WS.connect, hu, hen, h1, hsock]
  · intro hsock
    refine ⟨?_, ?_, ?_⟩ <;> simp [WS.connect, hu, hen, h1, hsock]

/-- Witness for C8: reconnecting while an open transport for user 7 exists
closes that transport and replaces it with one fresh, not yet open,
socket. -/
theorem C8_connect_teardown_witness :
    (WS.connect liveState).closeCalls = 1 ∧
    (WS.connect liveState).socket = some ⟨false, ⟨7, "patient"⟩⟩ ∧
    (WS.connect liveState).socketsCreated = 1 := by
  have h := (C8_connect_teardown liveState ⟨7, "patient"⟩ rfl rfl
    (by decide)).1 ⟨true, ⟨7, "patient"⟩⟩ rfl
  simpa [liveState] using h

/-- Quiescence, one step: in a state where the channel is disabled and no
timer of either kind is pending, any event other than `setEnabled(true)`
keeps it disabled with no pending timers, enters `connect` zero times,
creates no socket, and raises no terminal toast. -/
theorem WS_quiet_step (s : WS.ChannelState) (e : WS.Event)
    (h1 : s.enabled = false) (h2 : s.pendingTimer = none)
    (h3 : s.pendingConnect = false) (he : e ≠ WS.Event.setEnabledEv true) :
    (WS.step e s).enabled = false ∧ (WS.step e s).pendingTimer = none ∧
    (WS.step e s).pendingConnect = false ∧
    (WS.step e s).connectCalls = s.connectCalls ∧
    (WS.step e s).socketsCreated = s.socketsCreated ∧
    (WS.step e s).errorToasts = s.errorToasts := by
  cases e with
  | effect =>
    rcases hsock : s.socket with _ | sock
    · simp [WS.step, h1, h2, h3, hsock]
    · rcases ho : sock.isOpen with _ | _ <;>
        simp [WS.step, h1, h2, h3, hsock, ho]
  | openEv =>
    rcases hsock : s.socket with _ | sock
    · simp [WS.step, hsock, h1, h2, h3]
    · rcases ho : sock.isOpen with _ | _ <;>
        simp [WS.step, WS.onopen, hsock, ho, h1, h2, h3]
  | messageEv f =>
    rcases hsock : s.socket with _ | sock
    · simp [WS.step, hsock, h1, h2, h3]
    · rcases ho : sock.isOpen with _ | _
      · simp [WS.step, hsock, ho, h1, h2, h3]
      · rcases f with _ | d <;>
          simp [WS.step, WS.onmessage, hsock, ho, h1, h2, h3,
            WS_handleParsed_enabled, WS_handleParsed_pendingTimer,
            WS_handleParsed_pendingConnect, WS_handleParsed_connectCalls,
            WS_handleParsed_socketsCreated, WS_handleParsed_errorToasts]
  | closeEv =>
    rcases hsock : s.socket with _ | sock <;>
      simp [WS.step, WS.onclose, hsock, h1, h2, h3]
  | timerFire => simp [WS.step, h1, h2, h3]
  | enableFire => simp [WS.step, h1, h2, h3]
  | setEnabledEv b =>
    cases b with
    | true => exact absurd rfl he
    | false =>
      rcases hsock : s.socket with _ | sock <;>
        simp [WS.step, WS.setEnabled, hsock, h1, h2, h3]
  | sendEv m =>
    rcases hsock : s.socket with _ | sock
    · simp [WS.step, WS.sendMessage, hsock, h1, h2, h3]
    · rcases ho : sock.isOpen with _ | _ <;>
        simp [WS.step, WS.sendMessage, hsock, ho, h1, h2, h3]

/-- Quiescence, any run: from a disabled state with no pending timers, any
sequence of events that never contains `setEnabled(true)` leaves the
channel disabled, enters `connect` zero times, creates no socket, and
raises no terminal toast. -/
theorem WS_quiet_run (es : List WS.Event) :
    ∀ s : WS.ChannelState, s.enabled = false → s.pendingTimer = none →
    s.pendingConnect = false →
    (∀ e ∈ es, e ≠ WS.Event.setEnabledEv true) →
    (WS.run es s).enabled = false ∧ (WS.run es s).pendingTimer = none ∧
    (WS.run es s).pendingConnect = false ∧
    (WS.run es s).connectCalls = s.connectCalls ∧
    (WS.run es s).socketsCreated = s.socketsCreated ∧
    (WS.run es s).errorToasts = s.errorToasts := by
  induction es with
  | nil => intro s h1 h2 h3 _; exact ⟨h1, h2, h3, rfl, rfl, rfl⟩
  | cons e es ih =>
    intro s h1 h2 h3 hq
    have hstep := WS_quiet_step s e h1 h2 h3 (hq e (by simp))
    have hrun : WS.run (e :: es) s = WS.run es (WS.step e s) := rfl
    have hrest := ih (WS.step e s) hstep.1 hstep.2.1 hstep.2.2.1
      (fun x hx => hq x (by simp [hx]))
    rw [hrun]
    exact ⟨hrest.1, hrest.2.1, hrest.2.2.1,
      hrest.2.2.2.1.trans hstep.2.2.2.1,
      hrest.2.2.2.2.1.trans hstep.2.2.2.2.1,
      hrest.2.2.2.2.2.trans hstep.2.2.2.2.2⟩

/-- Claim C1: starting from a connected state with a fresh attempt counter,
consecutive unexpected closes with no intervening open schedule reconnect
delays of exactly `2000 * 2^(k-1)` ms before attempt k — 2000, 4000, 8000 —
and after the third attempt the run ends with no timer pending and no
socket, so neither a further close nor a timer event has any effect: no
attempt beyond `maxAttempts = 3` is ever scheduled.  In general, `onclose`
schedules `baseDelayMs * 2^attempt` exactly while `attempt < maxAttempts`
with the channel enabled, and schedules nothing at or beyond the cap. -/
theorem C1_backoff_schedule (s : WS.ChannelState) (u : Identity)
    (sock : Socket) (hu : s.user = some u) (hen : s.enabled = true)
    (hs : s.socket = some sock) (hatt : s.reconnectAttempts = 0)
    (hpt : s.pendingTimer = none) :
    (WS.run [.closeEv] s).pendingTimer = some 2000 ∧
    (WS.run [.closeEv, .timerFire, .closeEv] s).pendingTimer = some 4000 ∧
    (WS.run [.closeEv, .timerFire, .closeEv, .timerFire, .closeEv]
      s).pendingTimer = some 8000 ∧
    (WS.run WS.exhaustRun s).pendingTimer = none ∧
    (WS.run WS.exhaustRun s).socket = none ∧
    WS.step .closeEv (WS.run WS.exhaustRun s) = WS.run WS.exhaustRun s ∧
    WS.step .timerFire (WS.run WS.exhaustRun s) = WS.run WS.exhaustRun s ∧
    (∀ r : WS.ChannelState, r.enabled = true →
      r.reconnectAttempts < WS.maxReconnectAttempts →
      (WS.onclose r).pendingTimer =
        some (WS.baseDelayMs * 2 ^ r.reconnectAttempts)) ∧
    (∀ r : WS.ChannelState, WS.maxReconnectAttempts ≤ r.reconnectAttempts →
      (WS.onclose r).pendingTimer = r.pendingTimer) := by
  refine ⟨?_, ?_, ?_, ?_, ?_, ?_, ?_, ?_, ?_⟩
  · simp [WS.run, WS.step, WS.onclose, WS.connect, WS.setEnabled,
      WS.exhaustRun, WS.maxReconnectAttempts, WS.baseDelayMs,
      hu, hen, hs, hatt, hpt]
  · simp [WS.run, WS.step, WS.onclose, WS.connect, WS.setEnabled,
      WS.exhaustRun, WS.maxReconnectAttempts, WS.baseDelayMs,
      hu, hen, hs, hatt, hpt]
  · simp [WS.run, WS.step, WS.onclose, WS.connect, WS.setEnabled,
      WS.exhaustRun, WS.maxReconnectAttempts, WS.baseDelayMs,
      hu, hen, hs, hatt, hpt]
  · simp [WS.run, WS.step, WS.onclose, WS.connect, WS.setEnabled,
      WS.exhaustRun, WS.maxReconnectAttempts, WS.baseDelayMs,
      hu, hen, hs, hatt, hpt]
  · simp [WS.run, WS.step, WS.onclose, WS.connect, WS.setEnabled,
      WS.exhaustRun, WS.maxReconnectAttempts, WS.baseDelayMs,
      hu, hen, hs, hatt, hpt]
  · simp [WS.run, WS.step, WS.onclose, WS.connect, WS.setEnabled,
      WS.exhaustRun, WS.maxReconnectAttempts, WS.baseDelayMs,
      hu, hen, hs, hatt, hpt]
  · simp [WS.run, WS.step, WS.onclose, WS.connect, WS.setEnabled,
      WS.exhaustRun, WS.maxReconnectAttempts, WS.baseDelayMs,
      hu, hen, hs, hatt, hpt]
  · intro r h1 h2
    simp [WS.onclose, h1, h2]
  · intro r h1
    have h2 : ¬ (r.reconnectAttempts < WS.maxReconnectAttempts ∧
        r.enabled = true) := by
      rintro ⟨hlt, _⟩; exact absurd h1 (Nat.not_le.mpr hlt)
    simp [WS.onclose, h2]

/-- Witness for C1: from a live connection for user 7, the three backoff
delays are 2000, 4000 and 8000 ms, and the exhausted run ends with no timer
and no socket. -/
theorem C1_backoff_schedule_witness :
    (WS.run [.closeEv] liveState).pendingTimer = some 2000 ∧
    (WS.run [.closeEv, .timerFire, .closeEv] liveState).pendingTimer =
      some 4000 ∧
    (WS.run [.closeEv, .timerFire, .closeEv, .timerFire, .closeEv]
      liveState).pendingTimer = some 8000 ∧
    (WS.run WS.exhaustRun liveState).pendingTimer = none ∧
    (WS.run WS.exhaustRun liveState).socket = none := by
  have h := C1_backoff_schedule liveState ⟨7, "patient"⟩
    ⟨true, ⟨7, "patient"⟩⟩ rfl rfl rfl rfl rfl
  exact ⟨h.1, h.2.1, h.2.2.1, h.2.2.2.1, h.2.2.2.2.1⟩

/-- Claim C2: after `maxAttempts = 3` consecutive unexpected closes with no
intervening successful open, the enabled flag goes from true to false
exactly once (true after every proper prefix of the run, false at its end),
the terminal connectivity toast is raised exactly once, `"false"` is
persisted — and afterwards, for any sequence of events not containing
`setEnabled(true)`, `connect` is never entered again, no socket is created,
no further terminal toast is raised, and the channel stays disabled. -/
theorem C2_exhaustion_disables_once (s : WS.ChannelState) (u : Identity)
    (sock : Socket) (hu : s.user = some u) (hen : s.enabled = true)
    (hs : s.socket = some sock) (hatt : s.reconnectAttempts = 0)
    (hpt : s.pendingTimer = none) (hpc : s.pendingConnect = false) :
    (∀ k, k < 6 → (WS.run (WS.exhaustRun.take k) s).enabled = true) ∧
    (WS.run WS.exhaustRun s).enabled = false ∧
    (WS.run WS.exhaustRun s).storage = some "false" ∧
    (WS.run WS.exhaustRun s).errorToasts = s.errorToasts + 1 ∧
    (∀ es : List WS.Event, (∀ e ∈ es, e ≠ WS.Event.setEnabledEv true) →
      (WS.run es (WS.run WS.exhaustRun s)).connectCalls =
        (WS.run WS.exhaustRun s).connectCalls ∧
      (WS.run es (WS.run WS.exhaustRun s)).enabled = false ∧
      (WS.run es (WS.run WS.exhaustRun s)).socketsCreated =
        (WS.run WS.exhaustRun s).socketsCreated ∧
      (WS.run es (WS.run WS.exhaustRun s)).errorToasts =
        (WS.run WS.exhaustRun s).errorToasts) := by
  refine ⟨?_, ?_, ?_, ?_, ?_⟩
  · intro k hk
    interval_cases k <;>
      simp [WS.run, WS.step, WS.onclose, WS.connect, WS.setEnabled,
        WS.exhaustRun, WS.maxReconnectAttempts, WS.baseDelayMs,
        hu, hen, hs, hatt, hpt, hpc]
  · simp [WS.run, WS.step, WS.onclose, WS.connect, WS.setEnabled,
      WS.exhaustRun, WS.maxReconnectAttempts, WS.baseDelayMs,
      hu, hen, hs, hatt, hpt, hpc]
  · simp [WS.run, WS.step, WS.onclose, WS.connect, WS.setEnabled,
      WS.exhaustRun, WS.maxReconnectAttempts, WS.baseDelayMs,
      hu, hen, hs, hatt, hpt, hpc]
  · simp [WS.run, WS.step, WS.onclose, WS.connect, WS.setEnabled,
      WS.exhaustRun, WS.maxReconnectAttempts, WS.baseDelayMs,
      hu, hen, hs, hatt, hpt, hpc]
  · intro es hq
    have hq1 : (WS.run WS.exhaustRun s).enabled = false := by
      simp [WS.run, WS.step, WS.onclose, WS.connect, WS.setEnabled,
        WS.exhaustRun, WS.maxReconnectAttempts, WS.baseDelayMs,
        hu, hen, hs, hatt, hpt, hpc]
    have hq2 : (WS.run WS.exhaustRun s).pendingTimer = none := by
      simp [WS.run, WS.step, WS.onclose, WS.connect, WS.setEnabled,
        WS.exhaustRun, WS.maxReconnectAttempts, WS.baseDelayMs,
        hu, hen, hs, hatt, hpt, hpc]
    have hq3 : (WS.run WS.exhaustRun s).pendingConnect = false := by
      simp [WS.run, WS.step, WS.onclose, WS.connect, WS.setEnabled,
        WS.exhaustRun, WS.maxReconnectAttempts, WS.baseDelayMs,
        hu, hen, hs, hatt, hpt, hpc]
    have h := WS_quiet_run es (WS.run WS.exhaustRun s) hq1 hq2 hq3 hq
    exact ⟨h.2.2.2.1, h.1, h.2.2.2.2.1, h.2.2.2.2.2⟩

/-- Witness for C2: from a live connection for user 7, the exhausted run
disables the channel, persists `"false"` and raises one terminal toast; a
subsequent close, timer, effect and send cause no further `connect` entry,
socket, or toast. -/
theorem C2_exhaustion_disables_once_witness :
    (WS.run WS.exhaustRun liveState).enabled = false ∧
    (WS.run WS.exhaustRun liveState).storage = some "false" ∧
    (WS.run WS.exhaustRun liveState).errorToasts = 1 ∧
    (WS.run [.closeEv, .timerFire, .effect, .sendEv (.jStr "ping")]
      (WS.run WS.exhaustRun liveState)).connectCalls =
      (WS.run WS.exhaustRun liveState).connectCalls ∧
    (WS.run [.closeEv, .timerFire, .effect, .sendEv (.jStr "ping")]
      (WS.run WS.exhaustRun liveState)).enabled = false := by
  have h := C2_exhaustion_disables_once liveState ⟨7, "patient"⟩
    ⟨true, ⟨7, "patient"⟩⟩ rfl rfl rfl rfl rfl rfl
  have hq := h.2.2.2.2 [.closeEv, .timerFire, .effect, .sendEv (.jStr "ping")]
    (by intro e he; fin_cases he <;> simp)
  exact ⟨h.2.1, h.2.2.1, h.2.2.2.1, hq.1, hq.2.1⟩
